import Mathlib

/-!
Verification of the poly arbitrage monitor (arbitrage_monitor crate).

Shallow embedding conventions:
* Rust f64 prices are modelled as rationals; the arithmetic in the claims
  is order comparison, subtraction, multiplication and division on small
  values, faithfully mirrored over the rationals.
* Rust i32 integer cent prices are modelled as Int.
* A price string together with the outcome of price.parse f64 is modelled
  as an Option of a rational: none means the string is unparsable, some q
  means it parses to q.
* Async request outcomes (Result in Rust) are modelled as Except String.
-/

/-- KalshiOrderbook from kalshi/client.rs: yes and no sides, each a list of
(price, size) pairs in integer cents. -/
structure KalshiOrderbook where
  yes : List (Int × Int)
  no : List (Int × Int)
deriving DecidableEq, Repr

/-- KalshiMarket from kalshi/client.rs. -/
structure KalshiMarket where
  ticker : String
  title : String
  yes_bid : Int
  yes_ask : Int
  no_bid : Int
  no_ask : Int
  last_price : Int
  volume_24h : Int
  open_interest : Int
  orderbook : Option KalshiOrderbook
deriving DecidableEq, Repr

/-- OrderbookLevel from polymarket/client.rs. The source stores price and
size as strings; here each field is the parse outcome of that string. -/
structure OrderbookLevel where
  price : Option ℚ
  size : Option ℚ
deriving DecidableEq, Repr

/-- PolymarketMarket from polymarket/client.rs. -/
structure PolymarketMarket where
  token_id : String
  best_bid : ℚ
  best_ask : ℚ
  bids : List OrderbookLevel
  asks : List OrderbookLevel
deriving DecidableEq, Repr

/-- ArbitrageOpportunity from arbitrage.rs. -/
structure ArbitrageOpportunity where
  buy_platform : String
  sell_platform : String
  buy_price : ℚ
  sell_price : ℚ
  profit_cents : ℚ
  profit_pct : ℚ
deriving DecidableEq, Repr

/-- detect_arbitrage from arbitrage.rs, lines 15 to 57. -/
def detect_arbitrage (kalshi : KalshiMarket) (polymarket : PolymarketMarket) :
    Option ArbitrageOpportunity :=
  -- Convert Kalshi cents to dollars for comparison
  let kalshi_bid : ℚ := (kalshi.yes_bid : ℚ) / 100
  let kalshi_ask : ℚ := (kalshi.yes_ask : ℚ) / 100
  let poly_bid := polymarket.best_bid
  let poly_ask := polymarket.best_ask
  -- Check if we can buy on Polymarket and sell on Kalshi
  if kalshi_bid > poly_ask ∧ poly_ask > 0 then
    let profit := kalshi_bid - poly_ask
    let profit_pct := (profit / poly_ask) * 100
    some { buy_platform := "Polymarket", sell_platform := "Kalshi",
           buy_price := poly_ask, sell_price := kalshi_bid,
           profit_cents := profit * 100, profit_pct := profit_pct }
  -- Check if we can buy on Kalshi and sell on Polymarket
  else if poly_bid > kalshi_ask ∧ kalshi_ask > 0 then
    let profit := poly_bid - kalshi_ask
    let profit_pct := (profit / kalshi_ask) * 100
    some { buy_platform := "Kalshi", sell_platform := "Polymarket",
           buy_price := kalshi_ask, sell_price := poly_bid,
           profit_cents := profit * 100, profit_pct := profit_pct }
  else
    none

/-- A quote reduced to its best bid and best ask, the shape the spec uses
for the abstract detector detect(Qa, Qb). -/
structure PairQuote where
  best_bid : ℚ
  best_ask : ℚ
deriving DecidableEq, Repr

/-- Opportunity of the abstract detector: buyFirst is true when the buy
happens on the first argument quote and the sell on the second. -/
structure SpecOpportunity where
  buyFirst : Bool
  buy_price : ℚ
  sell_price : ℚ
  profit_abs : ℚ
  profit_pct : ℚ
deriving DecidableEq, Repr

/-- The detection policy in the words of the spec, section 4.4: first check
A.best_bid above B.best_ask with B.best_ask positive, else check B.best_bid
above A.best_ask with A.best_ask positive, else no opportunity. -/
def detect_spec (a b : PairQuote) : Option SpecOpportunity :=
  if a.best_bid > b.best_ask ∧ b.best_ask > 0 then
    some { buyFirst := false, buy_price := b.best_ask, sell_price := a.best_bid,
           profit_abs := a.best_bid - b.best_ask,
           profit_pct := (a.best_bid - b.best_ask) / b.best_ask * 100 }
  else if b.best_bid > a.best_ask ∧ a.best_ask > 0 then
    some { buyFirst := true, buy_price := a.best_ask, sell_price := b.best_bid,
           profit_abs := b.best_bid - a.best_ask,
           profit_pct := (b.best_bid - a.best_ask) / a.best_ask * 100 }
  else
    none

/-- The PairQuote view of a Kalshi market: integer cents over 100, as in
arbitrage.rs lines 20 and 21. -/
def kalshiView (k : KalshiMarket) : PairQuote :=
  { best_bid := (k.yes_bid : ℚ) / 100, best_ask := (k.yes_ask : ℚ) / 100 }

/-- The PairQuote view of a Polymarket market. -/
def polyView (p : PolymarketMarket) : PairQuote :=
  { best_bid := p.best_bid, best_ask := p.best_ask }

/-- A Kalshi market with the given top of book and no depth attached. -/
def mkKalshi (bid ask : Int) : KalshiMarket :=
  { ticker := "K", title := "T", yes_bid := bid, yes_ask := ask,
    no_bid := 100 - ask, no_ask := 100 - bid, last_price := bid,
    volume_24h := 0, open_interest := 0, orderbook := none }

/-- A Polymarket market with the given top of book and empty depth. -/
def mkPoly (bid ask : ℚ) : PolymarketMarket :=
  { token_id := "P", best_bid := bid, best_ask := ask, bids := [], asks := [] }

/-- Claim C1, counterexample: Kalshi yes_ask is 0, yet detect_arbitrage
reports an opportunity, because the zero-ask guard on the first branch only
inspects the Polymarket ask. Kalshi bid 0.90 crosses Polymarket ask 0.60,
so the first branch fires even though the Kalshi ask is 0. -/
theorem c1_zero_ask_counterexample :
    (mkKalshi 90 0).yes_ask = 0 ∧
      (detect_arbitrage (mkKalshi 90 0) (mkPoly 0 (3/5))).isSome = true := by
  constructor
  · rfl
  · norm_num [detect_arbitrage, mkKalshi, mkPoly]

/-- Claim C1, amended: if BOTH venues have a zero best ask (Kalshi yes_ask
is 0 and Polymarket best_ask is 0), detect_arbitrage returns none
regardless of the bid values. -/
theorem c1_zero_ask_amended (k : KalshiMarket) (p : PolymarketMarket)
    (hk : k.yes_ask = 0) (hp : p.best_ask = 0) :
    detect_arbitrage k p = none := by
  simp only [detect_arbitrage, hk, hp]
  norm_num

/-- Claim C1, witness for the amended theorem at a concrete input with
large bids on both sides. -/
theorem c1_zero_ask_witness :
    (mkKalshi 99 0).yes_ask = 0 ∧ (mkPoly (99/100) 0).best_ask = 0 ∧
      detect_arbitrage (mkKalshi 99 0) (mkPoly (99/100) 0) = none :=
  ⟨rfl, rfl, c1_zero_ask_amended (mkKalshi 99 0) (mkPoly (99/100) 0) rfl rfl⟩

/-- Claim C2: detect_arbitrage agrees with the detection policy written in
the words of the spec, applied to the Kalshi view (cents over 100) as venue
A and the Polymarket view as venue B, on the venue assignment and on the
buy and sell prices, and returns none exactly when the spec detector does. -/
theorem c2_fixed_order_detection (k : KalshiMarket) (p : PolymarketMarket) :
    (detect_arbitrage k p).map
        (fun o => (o.buy_platform, o.sell_platform, o.buy_price, o.sell_price))
      = (detect_spec (kalshiView k) (polyView p)).map
        (fun o => (if o.buyFirst then "Kalshi" else "Polymarket",
                   if o.buyFirst then "Polymarket" else "Kalshi",
                   o.buy_price, o.sell_price)) := by
  simp only [detect_arbitrage, detect_spec, kalshiView, polyView]
  split_ifs <;> simp

/-- Claim C3, counterexample: with Kalshi bid 0.90 crossing Polymarket ask
0.60, the returned absolute-profit field is 30 (cents), not the
probability-scale difference 0.30 of the sell and buy prices. -/
theorem c3_profit_fields_counterexample :
    (detect_arbitrage (mkKalshi 90 95) (mkPoly (1/2) (3/5))).map
        (fun o => o.profit_cents) = some 30 ∧
      (detect_arbitrage (mkKalshi 90 95) (mkPoly (1/2) (3/5))).map
        (fun o => o.sell_price - o.buy_price) = some (3/10) ∧
      (30 : ℚ) ≠ 3/10 := by
  refine ⟨?_, ?_, by norm_num⟩ <;> norm_num [detect_arbitrage, mkKalshi, mkPoly]

/-- Claim C3, amended: whenever detect_arbitrage returns some opportunity,
the buy and sell venues are distinct, sell_price is above buy_price, the
absolute-profit field profit_cents equals (sell_price - buy_price) * 100,
that is the price difference expressed in cents, and profit_pct equals
(sell_price - buy_price) / buy_price * 100. -/
theorem c3_profit_fields_amended (k : KalshiMarket) (p : PolymarketMarket)
    (o : ArbitrageOpportunity) (h : detect_arbitrage k p = some o) :
    o.buy_platform ≠ o.sell_platform ∧ o.buy_price < o.sell_price ∧
      o.profit_cents = (o.sell_price - o.buy_price) * 100 ∧
      o.profit_pct = (o.sell_price - o.buy_price) / o.buy_price * 100 := by
  simp only [detect_arbitrage] at h
  split_ifs at h with h1 h2
  · cases h
    refine ⟨by simp, h1.1, rfl, rfl⟩
  · cases h
    refine ⟨by simp, h2.1, rfl, rfl⟩

/-- Claim C3, witness for the amended theorem at the concrete opportunity
returned for Kalshi 90/95 against Polymarket 0.50/0.60. -/
theorem c3_profit_fields_witness :
    detect_arbitrage (mkKalshi 90 95) (mkPoly (1/2) (3/5)) =
        some { buy_platform := "Polymarket", sell_platform := "Kalshi",
               buy_price := 3/5, sell_price := 9/10,
               profit_cents := 30, profit_pct := 50 } ∧
      ("Polymarket" ≠ "Kalshi" ∧ (3/5 : ℚ) < 9/10 ∧
        (30 : ℚ) = (9/10 - 3/5) * 100 ∧
        (50 : ℚ) = (9/10 - 3/5) / (3/5) * 100) :=
  ⟨by norm_num [detect_arbitrage, mkKalshi, mkPoly],
    c3_profit_fields_amended (mkKalshi 90 95) (mkPoly (1/2) (3/5))
      { buy_platform := "Polymarket", sell_platform := "Kalshi",
        buy_price := 3/5, sell_price := 9/10,
        profit_cents := 30, profit_pct := 50 }
      (by norm_num [detect_arbitrage, mkKalshi, mkPoly])⟩

/-- Claim C4, counterexample: with quote Qa at bid 0.90 ask 0.30 and quote
Qb at bid 0.80 ask 0.20 (both venue books internally inverted, which the
data model allows), both argument orders report an opportunity buying on
the second argument, so the venue assignments are not opposite, and the
absolute profits differ: 0.70 one way, 0.50 the other. The same holds for
the concrete program detector with the quotes realised on either venue,
where the profit field comes out as 70 versus 50 cents. -/
theorem c4_symmetry_counterexample :
    (detect_spec ⟨9/10, 3/10⟩ ⟨4/5, 1/5⟩).map (fun o => (o.buyFirst, o.profit_abs))
        = some (false, 7/10) ∧
      (detect_spec ⟨4/5, 1/5⟩ ⟨9/10, 3/10⟩).map (fun o => (o.buyFirst, o.profit_abs))
        = some (false, 1/2) ∧
      ((7 : ℚ)/10 ≠ 1/2) ∧
      (detect_arbitrage (mkKalshi 90 30) (mkPoly (4/5) (1/5))).map
        (fun o => o.profit_cents) = some 70 ∧
      (detect_arbitrage (mkKalshi 80 20) (mkPoly (9/10) (3/10))).map
        (fun o => o.profit_cents) = some 50 := by
  refine ⟨?_, ?_, by norm_num, ?_, ?_⟩ <;>
    norm_num [detect_spec, detect_arbitrage, mkKalshi, mkPoly]

/-- Claim C4, amended: provided the two directional crossing conditions do
not both hold (they can only both hold when a venue book is internally
inverted), detecting with the arguments in one order and detecting with
the arguments swapped either both return no opportunity, or return
opportunities with opposite buy and sell slot assignments and identical
buy price, sell price, absolute profit and profit_pct. -/
theorem c4_symmetry_amended (a b : PairQuote)
    (h : ¬((a.best_bid > b.best_ask ∧ b.best_ask > 0) ∧
           (b.best_bid > a.best_ask ∧ a.best_ask > 0))) :
    (detect_spec a b = none ∧ detect_spec b a = none) ∨
      (∃ o1 o2, detect_spec a b = some o1 ∧ detect_spec b a = some o2 ∧
        o2.buyFirst = !o1.buyFirst ∧ o2.buy_price = o1.buy_price ∧
        o2.sell_price = o1.sell_price ∧ o2.profit_abs = o1.profit_abs ∧
        o2.profit_pct = o1.profit_pct) := by
  by_cases h1 : a.best_bid > b.best_ask ∧ b.best_ask > 0
  · have h2 : ¬(b.best_bid > a.best_ask ∧ a.best_ask > 0) := fun hc => h ⟨h1, hc⟩
    right
    refine ⟨{ buyFirst := false, buy_price := b.best_ask, sell_price := a.best_bid,
              profit_abs := a.best_bid - b.best_ask,
              profit_pct := (a.best_bid - b.best_ask) / b.best_ask * 100 },
            { buyFirst := true, buy_price := b.best_ask, sell_price := a.best_bid,
              profit_abs := a.best_bid - b.best_ask,
              profit_pct := (a.best_bid - b.best_ask) / b.best_ask * 100 },
            ?_, ?_, rfl, rfl, rfl, rfl, rfl⟩
    · simp only [detect_spec, if_pos h1]
    · simp only [detect_spec, if_neg h2, if_pos h1]
  · by_cases h2 : b.best_bid > a.best_ask ∧ a.best_ask > 0
    · right
      refine ⟨{ buyFirst := true, buy_price := a.best_ask, sell_price := b.best_bid,
                profit_abs := b.best_bid - a.best_ask,
                profit_pct := (b.best_bid - a.best_ask) / a.best_ask * 100 },
              { buyFirst := false, buy_price := a.best_ask, sell_price := b.best_bid,
                profit_abs := b.best_bid - a.best_ask,
                profit_pct := (b.best_bid - a.best_ask) / a.best_ask * 100 },
              ?_, ?_, rfl, rfl, rfl, rfl, rfl⟩
      · simp only [detect_spec, if_neg h1, if_pos h2]
      · simp only [detect_spec, if_pos h2]
    · left
      constructor
      · simp only [detect_spec, if_neg h1, if_neg h2]
      · simp only [detect_spec, if_neg h1, if_neg h2]

/-- Claim C4, witness for the amended theorem at the spec scenario quotes
Qa bid 0.60 ask 0.62 and Qb bid 0.65 ask 0.63, where only the second
crossing direction holds. -/
theorem c4_symmetry_witness :
    ¬((((3 : ℚ)/5 > 63/100 ∧ (63 : ℚ)/100 > 0) ∧
        ((13 : ℚ)/20 > 31/50 ∧ (31 : ℚ)/50 > 0))) ∧
      ((detect_spec ⟨3/5, 31/50⟩ ⟨13/20, 63/100⟩ = none ∧
          detect_spec ⟨13/20, 63/100⟩ ⟨3/5, 31/50⟩ = none) ∨
        (∃ o1 o2, detect_spec ⟨3/5, 31/50⟩ ⟨13/20, 63/100⟩ = some o1 ∧
          detect_spec ⟨13/20, 63/100⟩ ⟨3/5, 31/50⟩ = some o2 ∧
          o2.buyFirst = !o1.buyFirst ∧ o2.buy_price = o1.buy_price ∧
          o2.sell_price = o1.sell_price ∧ o2.profit_abs = o1.profit_abs ∧
          o2.profit_pct = o1.profit_pct)) :=
  ⟨by norm_num,
    c4_symmetry_amended ⟨3/5, 31/50⟩ ⟨13/20, 63/100⟩ (by norm_num [PairQuote.mk])⟩

/-- The sort key used by parse_orderbook in polymarket/client.rs: the parse
outcome of the price string, with unwrap_or 0.0 on parse failure. -/
def priceKey (l : OrderbookLevel) : ℚ := l.price.getD 0

/-- parse_orderbook from polymarket/client.rs lines 121 to 160, abstracted
over the already deserialized bid and ask level lists (serde failures
default to empty lists in the source). Bids are sorted descending and asks
ascending by parsed price, unparsable prices acting as 0.0 in the
comparator; best_bid and best_ask are the parse outcome of the first level
of each sorted list, or 0.0 when absent or unparsable. Rust sort_by is a
stable sort, modelled by mergeSort. -/
def parse_orderbook (token_id : String) (bids asks : List OrderbookLevel) :
    PolymarketMarket :=
  let bids2 := bids.mergeSort (fun a b => decide (priceKey b ≤ priceKey a))
  let asks2 := asks.mergeSort (fun a b => decide (priceKey a ≤ priceKey b))
  { token_id := token_id,
    best_bid := (bids2.head?.bind OrderbookLevel.price).getD 0,
    best_ask := (asks2.head?.bind OrderbookLevel.price).getD 0,
    bids := bids2,
    asks := asks2 }

lemma levelLe_trans (a b c : OrderbookLevel)
    (hab : decide (priceKey a ≤ priceKey b) = true)
    (hbc : decide (priceKey b ≤ priceKey c) = true) :
    decide (priceKey a ≤ priceKey c) = true := by
  simp only [decide_eq_true_eq] at *
  exact le_trans hab hbc

lemma levelLe_total (a b : OrderbookLevel) :
    (decide (priceKey a ≤ priceKey b) || decide (priceKey b ≤ priceKey a)) = true := by
  rcases le_total (priceKey a) (priceKey b) with h | h <;> simp [h]

lemma levelGe_trans (a b c : OrderbookLevel)
    (hab : decide (priceKey b ≤ priceKey a) = true)
    (hbc : decide (priceKey c ≤ priceKey b) = true) :
    decide (priceKey c ≤ priceKey a) = true := by
  simp only [decide_eq_true_eq] at *
  exact le_trans hbc hab

lemma levelGe_total (a b : OrderbookLevel) :
    (decide (priceKey b ≤ priceKey a) || decide (priceKey a ≤ priceKey b)) = true := by
  rcases le_total (priceKey a) (priceKey b) with h | h <;> simp [h]

/-- Claim C8: parse_orderbook keeps every level, including levels whose
price string failed to parse (output bids and asks are permutations of the
inputs, and the snapshot is produced unconditionally since the function is
total), and the outputs are sorted by the parsed price with unparsable
prices acting as 0.0: bids descending, asks ascending. -/
theorem c8_fail_soft_parse (tid : String) (bids asks : List OrderbookLevel) :
    (parse_orderbook tid bids asks).bids.Perm bids ∧
      (parse_orderbook tid bids asks).asks.Perm asks ∧
      (parse_orderbook tid bids asks).bids.Pairwise
        (fun a b => priceKey b ≤ priceKey a) ∧
      (parse_orderbook tid bids asks).asks.Pairwise
        (fun a b => priceKey a ≤ priceKey b) := by
  simp only [parse_orderbook]
  refine ⟨List.mergeSort_perm bids _, List.mergeSort_perm asks _, ?_, ?_⟩
  · exact (List.sorted_mergeSort (levelGe_trans · · ·) (levelGe_total · ·) bids).imp
      (fun h => of_decide_eq_true h)
  · exact (List.sorted_mergeSort (levelLe_trans · · ·) (levelLe_total · ·) asks).imp
      (fun h => of_decide_eq_true h)

/-- Claim C10: when the asks list is non-empty, contains an unparsable
level, and all parseable ask prices are nonnegative, the reported best_ask
is 0: the sorted asks start with a level of sort key 0. -/
theorem c10_unparsable_best_ask (tid : String) (bids asks : List OrderbookLevel)
    (hne : asks ≠ [])
    (hbad : ∃ l ∈ asks, l.price = none)
    (hnn : ∀ l ∈ asks, ∀ q : ℚ, l.price = some q → 0 ≤ q) :
    (parse_orderbook tid bids asks).best_ask = 0 := by
  simp only [parse_orderbook]
  obtain ⟨l0, hl0mem, hl0none⟩ := hbad
  have hperm := List.mergeSort_perm asks
    (fun a b => decide (priceKey a ≤ priceKey b))
  have hsorted := @List.sorted_mergeSort _
    (fun a b : OrderbookLevel => decide (priceKey a ≤ priceKey b))
    (levelLe_trans · · ·) (levelLe_total · ·) asks
  cases hs : asks.mergeSort (fun a b => decide (priceKey a ≤ priceKey b)) with
  | nil =>
      rw [hs] at hperm
      exact absurd hperm.symm.eq_nil hne
  | cons h0 t =>
      rw [hs] at hperm hsorted
      have hle0 : priceKey h0 ≤ 0 := by
        rcases List.mem_cons.mp (hperm.mem_iff.mpr hl0mem) with he | ht
        · rw [← he]
          simp [priceKey, hl0none]
        · have hdec := (List.pairwise_cons.mp hsorted).1 l0 ht
          have h2 := of_decide_eq_true hdec
          simpa [priceKey, hl0none] using h2
      have hge0 : 0 ≤ priceKey h0 := by
        have hmem : h0 ∈ asks := hperm.subset (List.mem_cons_self h0 t)
        cases hp : h0.price with
        | none => simp [priceKey, hp]
        | some q =>
            have := hnn h0 hmem q hp
            simpa [priceKey, hp] using this
      have hkey : priceKey h0 = 0 := le_antisymm hle0 hge0
      simpa [priceKey] using hkey

/-- Concrete ask list for the C10 witness: a parseable level at 0.5 and an
unparsable level. -/
def asksW : List OrderbookLevel := [⟨some (1/2), some 10⟩, ⟨none, some 5⟩]

/-- Claim C10, witness at a concrete book whose asks hold a parseable 0.5
level and one unparsable level. -/
theorem c10_unparsable_best_ask_witness :
    asksW ≠ [] ∧ (∃ l ∈ asksW, l.price = none) ∧
      (∀ l ∈ asksW, ∀ q : ℚ, l.price = some q → 0 ≤ q) ∧
      (parse_orderbook "t" [] asksW).best_ask = 0 := by
  have hnn : ∀ l ∈ asksW, ∀ q : ℚ, l.price = some q → 0 ≤ q := by
    intro l hl q hq
    simp only [asksW, List.mem_cons, List.not_mem_nil, or_false] at hl
    rcases hl with h | h <;> subst h
    · injection hq with h2
      subst h2
      norm_num
    · exact absurd hq (by simp)
  refine ⟨by simp [asksW], ⟨⟨none, some 5⟩, by simp [asksW], rfl⟩, hnn, ?_⟩
  exact c10_unparsable_best_ask "t" [] asksW (by simp [asksW])
    ⟨⟨none, some 5⟩, by simp [asksW], rfl⟩ hnn

/-- The Kalshi no-side levels sorted for display in main.rs lines 44 to 46:
descending by no price in cents. -/
def kalshi_no_asks (ob : KalshiOrderbook) : List (Int × Int) :=
  ob.no.mergeSort (fun a b => decide (b.1 ≤ a.1))

/-- The rendering of one no-side level as a yes ask in main.rs line 57:
price (100 - no_price) / 100, size unchanged. -/
def kalshi_ask_level (l : Int × Int) : ℚ × Int :=
  (((100 : ℚ) - (l.1 : ℚ)) / 100, l.2)

/-- The full rendered yes-ask list of the Kalshi no book. -/
def kalshi_rendered_asks (ob : KalshiOrderbook) : List (ℚ × Int) :=
  (kalshi_no_asks ob).map kalshi_ask_level

/-- Claim C9: every no-book level at cent price P is rendered as a yes ask
at probability price (100 - P) / 100 (the rendered list is a permutation of
the pointwise inversion of the no book), the rendered ask prices come out
ascending, best ask first, and a no level at 38 renders at price 0.62. -/
theorem c9_depth_inversion (ob : KalshiOrderbook) (s : Int) :
    (kalshi_rendered_asks ob).Perm (ob.no.map kalshi_ask_level) ∧
      (kalshi_rendered_asks ob).Pairwise (fun x y => x.1 ≤ y.1) ∧
      kalshi_ask_level (38, s) = ((62 : ℚ)/100, s) := by
  refine ⟨(List.mergeSort_perm ob.no _).map kalshi_ask_level, ?_, ?_⟩
  · have hsorted := @List.sorted_mergeSort _
      (fun a b : Int × Int => decide (b.1 ≤ a.1))
      (fun a b c hab hbc => by
        simp only [decide_eq_true_eq] at *
        exact le_trans hbc hab)
      (fun a b => by rcases le_total a.1 b.1 with h | h <;> simp [h]) ob.no
    rw [kalshi_rendered_asks, List.pairwise_map]
    refine hsorted.imp ?_
    intro a b h
    have h2 : (b.1 : ℚ) ≤ (a.1 : ℚ) := by exact_mod_cast of_decide_eq_true h
    simp only [kalshi_ask_level]
    linarith
  · simp only [kalshi_ask_level]
    norm_num

/-- The loop-local pull state of main.rs: last_kalshi_fetch (an instant,
modelled as a rational wall-clock time) and last_kalshi_market. -/
structure PullState where
  lastFetch : ℚ
  cache : Option KalshiMarket
deriving DecidableEq, Repr

/-- The pull branch of one Synchronizer tick, main.rs lines 256 to 271 and
298 to 300. The fetch is attempted exactly when now minus lastFetch is at
least the poll interval; line 259 resets last_kalshi_fetch before the fetch
and regardless of its outcome; on error the fetch yields None so
last_kalshi_market is left unchanged. The fetch argument is the outcome the
network operation would produce if invoked. Returns the new state and
whether get_market was invoked. -/
def pull_tick (interval now : ℚ) (fetch : Except String KalshiMarket)
    (st : PullState) : PullState × Bool :=
  if interval ≤ now - st.lastFetch then
    match fetch with
    | .ok m => ({ lastFetch := now, cache := some m }, true)
    | .error _ => ({ lastFetch := now, cache := st.cache }, true)
  else (st, false)

/-- Pull state instrumented with the time of the last successful fetch, a
ghost field needed only to state the claimed gating condition. -/
structure PullObs where
  st : PullState
  lastSuccess : Option ℚ
deriving DecidableEq, Repr

/-- pull_tick together with ghost tracking of the last success time. -/
def pull_tick_obs (interval now : ℚ) (fetch : Except String KalshiMarket)
    (o : PullObs) : PullObs × Bool :=
  let r := pull_tick interval now fetch o.st
  ({ st := r.1,
     lastSuccess := if r.2 && fetch.isOk then some now else o.lastSuccess },
   r.2)

/-- Observed state after a successful fetch at time 1 (interval 1, initial
instant 0). -/
def obs1 : PullObs :=
  (pull_tick_obs 1 1 (Except.ok (mkKalshi 60 62)) ⟨⟨0, none⟩, none⟩).1

/-- Observed state after a further failed fetch at time 2. -/
def obs2 : PullObs :=
  (pull_tick_obs 1 2 (Except.error "network") obs1).1

/-- Claim C5, counterexample: with poll interval 1, a successful fetch at
time 1 and a failed fetch at time 2, the tick at time 5/2 does not invoke
the fetch, although the wall-clock time since the last successful fetch is
3/2, at least the interval: the code measures from the last attempt, not
the last success. -/
theorem c5_poll_gate_counterexample :
    obs2.lastSuccess = some 1 ∧ (1 : ℚ) ≤ 5/2 - 1 ∧
      (pull_tick_obs 1 (5/2) (Except.ok (mkKalshi 60 62)) obs2).2 = false := by
  have h1 : obs1 = ⟨⟨1, some (mkKalshi 60 62)⟩, some 1⟩ := by
    simp [obs1, pull_tick_obs, pull_tick, Except.isOk, Except.toBool]
  have h2 : obs2 = ⟨⟨2, some (mkKalshi 60 62)⟩, some 1⟩ := by
    rw [obs2, h1]
    simp [pull_tick_obs, pull_tick, Except.isOk, Except.toBool]
    norm_num
  refine ⟨by rw [h2], by norm_num, ?_⟩
  rw [h2]
  simp [pull_tick_obs, pull_tick]
  norm_num

/-- Claim C5, amended: in every tick, the pull fetch is invoked exactly
when the wall-clock time elapsed since the last fetch ATTEMPT (successful
or not) is at least the poll interval, and the attempt timestamp is reset
to the current time whenever the gate opens, before the outcome is known. -/
theorem c5_poll_gate_amended (interval now : ℚ)
    (fetch : Except String KalshiMarket) (st : PullState) :
    ((pull_tick interval now fetch st).2 = true ↔
        interval ≤ now - st.lastFetch) ∧
      (pull_tick interval now fetch st).1.lastFetch =
        (if interval ≤ now - st.lastFetch then now else st.lastFetch) := by
  unfold pull_tick
  split_ifs with h
  · cases fetch <;> simp [h]
  · simp [h]

/-- Claim C6: a tick whose pull fetch is attempted (the gate is open) and
returns an error leaves the cached quote exactly as it was. -/
theorem c6_stale_retention (interval now : ℚ) (e : String) (st : PullState)
    (h : interval ≤ now - st.lastFetch) :
    (pull_tick interval now (Except.error e) st).2 = true ∧
      (pull_tick interval now (Except.error e) st).1.cache = st.cache := by
  unfold pull_tick
  rw [if_pos h]
  exact ⟨rfl, rfl⟩

/-- Claim C6, witness: interval 1, last fetch at time 1/2, failed fetch at
time 2 with a cached market present; the cache survives unchanged. -/
theorem c6_stale_retention_witness :
    (1 : ℚ) ≤ 2 - (1/2 : ℚ) ∧
      ((pull_tick 1 2 (Except.error "network")
          ⟨1/2, some (mkKalshi 60 62)⟩).2 = true ∧
        (pull_tick 1 2 (Except.error "network")
          ⟨1/2, some (mkKalshi 60 62)⟩).1.cache = some (mkKalshi 60 62)) :=
  ⟨by norm_num,
    c6_stale_retention 1 2 "network" ⟨1/2, some (mkKalshi 60 62)⟩ (by norm_num)⟩

/-- get_market from kalshi/client.rs lines 64 to 105, abstracted over the
outcomes of its two HTTP round trips: marketResp bundles the signed market
request (a send failure, a non-success status, and a decode failure all
return early with an error), and orderbookResp is the outcome of the
secondary orderbook request of lines 97 to 104, consumed with
if let Ok(orderbook), so its error case is dropped. -/
def get_market (marketResp : Except String KalshiMarket)
    (orderbookResp : Except String KalshiOrderbook) :
    Except String KalshiMarket :=
  match marketResp with
  | .error e => .error e
  | .ok market =>
      match orderbookResp with
      | .ok ob => .ok { market with orderbook := some ob }
      | .error _ => .ok market

/-- Claim C7, counterexample: a failing secondary orderbook request does
not surface as an error from get_market; the partial market (without
depth) is returned as a success. -/
theorem c7_swallowed_orderbook_error_counterexample :
    get_market (Except.ok (mkKalshi 60 62)) (Except.error "network")
      = Except.ok (mkKalshi 60 62) := rfl

/-- Claim C7, amended: a failure of the primary market request surfaces as
an explicit error from get_market, but a failure of the secondary
orderbook request is silently swallowed: the market is returned as a
success without depth attached, while an orderbook success is merged in. -/
theorem c7_error_surfacing_amended (e : String)
    (obr : Except String KalshiOrderbook) (m : KalshiMarket)
    (ob : KalshiOrderbook) :
    get_market (Except.error e) obr = Except.error e ∧
      get_market (Except.ok m) (Except.error e) = Except.ok m ∧
      get_market (Except.ok m) (Except.ok ob)
        = Except.ok { m with orderbook := some ob } :=
  ⟨rfl, rfl, rfl⟩
